import Mathlib

/-!
Verification of the demand forecasting and replenishment-recommendation
engine of control-petro (`src/predictions.py`), shallowly embedded in Lean.

Modelling conventions:
* Python/numpy floats are modelled as exact rationals (`ℚ`); the one
  irrational quantity, `np.std` (a square root), is modelled in `ℝ`.
* Calendar dates are modelled as integers (days since an epoch chosen so
  that day 0 is a Monday); `datetime.weekday()` (Monday = 0 .. Sunday = 6)
  becomes `weekday d = (d % 7).toNat`.  The `strptime` parse in
  `predict_demand` cannot fail on integer dates, so the `except ValueError`
  branch is dead in the model.
* Python `round` (and `np.round`) round half to even; `round(x, k)` is
  modelled as `rndHE (x * 10^k) / 10^k` on exact rationals.
* The database readers (`get_daily_sales_history`, `get_current_inventory`,
  `Station.query`) are external collaborators: the forecaster takes the
  daily-totals series as an argument, and the recommendation batch takes
  the list of active stations plus inventory/history lookup functions.
  The `db.session.add`/`commit` persistence of `Prediction` rows is a side
  effect outside the computation and is not modelled.
* Display-only string fields of a recommendation (station code/name/address
  and the `reason` text) carry no logic and are omitted from the record.
-/

set_option maxRecDepth 8000

namespace ControlPetro

/-- Python `round` with no digits: round half to even (banker's rounding),
exactly `round(x)` on an exact value.  At a tie (`fract x = 1/2`) the even
one of `⌊x⌋, ⌊x⌋ + 1` is chosen; elsewhere it is the nearest integer. -/
def rndHE (q : ℚ) : ℤ :=
  if Int.fract q = 1 / 2 then (if Even ⌊q⌋ then ⌊q⌋ else ⌊q⌋ + 1) else round q

/-- The same banker's rounding on `ℝ` (used only for the confidence value,
which involves a square root). -/
noncomputable def rndHER (x : ℝ) : ℤ :=
  if Int.fract x = 1 / 2 then (if Even ⌊x⌋ then ⌊x⌋ else ⌊x⌋ + 1) else round x

/-- Python `round(x, 1)` on an exact rational. -/
def roundTo1 (q : ℚ) : ℚ := (rndHE (q * 10) : ℚ) / 10

/-- Python `round(x, 3)` on an exact rational. -/
def roundTo3Q (q : ℚ) : ℚ := (rndHE (q * 1000) : ℚ) / 1000

/-- Python `round(x, 3)` on a real (the confidence). -/
noncomputable def roundTo3R (x : ℝ) : ℝ := (rndHER (x * 1000) : ℝ) / 1000

/-- Python `int()` on a float: truncation toward zero. -/
def pytrunc (q : ℚ) : ℤ := if 0 ≤ q then ⌊q⌋ else ⌈q⌉

/-- `np.mean` over a list (`0` on the empty list, where numpy warns). -/
def listMean (l : List ℚ) : ℚ := l.sum / l.length

/-- Σ aᵢ·bᵢ over two lists, pairing positions like numpy broadcasting. -/
def dot (a b : List ℚ) : ℚ := (List.zipWith (fun x y => x * y) a b).sum

/-- Population variance (`ddof = 0`), so `np.std l = sqrt (varOf l)`. -/
def varOf (l : List ℚ) : ℚ := listMean (l.map (fun x => (x - listMean l) ^ 2))

/-- `datetime.weekday()`: Monday = 0 .. Sunday = 6, with days numbered so
that day 0 is a Monday. -/
def weekday (d : ℤ) : ℕ := (d % 7).toNat

/-- The liters column of a daily-totals series `[(day, liters), ...]`. -/
def valsOf (history : List (ℤ × ℚ)) : List ℚ := history.map Prod.snd

/-- `predictions.py` line 35: the WMA weight vector — the fixed profile
`[1,1,2,2,3,3,4]` with at least 7 observed days, else `np.arange(1, n+1)`. -/
def wmaWeights (n : ℕ) : List ℚ :=
  if 7 ≤ n then [1, 1, 2, 2, 3, 3, 4] else (List.range n).map (fun i => (Nat.cast i : ℚ) + 1)

/-- `predictions.py` lines 35-37: the weighted moving average
`np.average(values[-len(w):], weights=w[-len(recent):])`. -/
def wmaOf (vals : List ℚ) : ℚ :=
  let w := wmaWeights vals.length
  let recent := vals.drop (vals.length - w.length)
  let wr := w.drop (w.length - recent.length)
  dot wr recent / wr.sum

/-- The ordinary-least-squares slope of `y` against `x = 0,1,...,n-1` in
closed form; `np.polyfit(x, y, 1)` computes exactly this slope on exact
arithmetic. -/
def slopeOLS (y : List ℚ) : ℚ :=
  let m : ℚ := y.length
  let xs := (List.range y.length).map (fun i => (Nat.cast i : ℚ))
  (m * dot xs y - xs.sum * y.sum) / (m * dot xs xs - xs.sum ^ 2)

/-- `predictions.py` lines 40-46: linear trend over the last
`min(14, n)` days, zero with fewer than 5 points. -/
def trendOf (vals : List ℚ) : ℚ :=
  let td := vals.drop (vals.length - min 14 vals.length)
  if 5 ≤ td.length then slopeOLS td else 0

/-- `predictions.py` lines 49-58: the liters observed on a given weekday,
in history order (`dow_factors[dow]`). -/
def dowVals (history : List (ℤ × ℚ)) (w : ℕ) : List ℚ :=
  (history.filter (fun p => weekday p.1 == w)).map Prod.snd

/-- `predictions.py` line 61: `np.mean(values) if len(values) > 0 else wma`. -/
def overallAvgOf (vals : List ℚ) : ℚ :=
  if 0 < vals.length then listMean vals else wmaOf vals

/-- `predictions.py` lines 60-64 and 72: the day-of-week multiplier the
projection uses — `dow_multipliers.get(dow, 1.0)`, where the dictionary
holds `avg / overall_avg if overall_avg > 0 else 1.0` for every weekday
present in the history. -/
def dowMultUsed (history : List (ℤ × ℚ)) (w : ℕ) : ℚ :=
  let vs := dowVals history w
  if vs.isEmpty then 1
  else if 0 < overallAvgOf (valsOf history) then
    listMean vs / overallAvgOf (valsOf history)
  else 1

/-- One entry of the forecast's prediction list (`predictions.py` 75-79). -/
structure DayPrediction where
  date : ℤ
  predicted_liters : ℚ
  dow_multiplier : ℚ
deriving DecidableEq, Repr

/-- `predictions.py` lines 69-79: the projection for future day `d`
(1-based): `(wma + trend*d) * dow_mult`, floored at 0, rounded to whole
liters; the multiplier is reported rounded to 3 decimals. -/
def mkPrediction (history : List (ℤ × ℚ)) (today : ℤ) (wma trend : ℚ)
    (d : ℕ) : DayPrediction :=
  let future := today + d
  let m := dowMultUsed history (weekday future)
  let p := max ((wma + trend * d) * m) 0
  ⟨future, (rndHE p : ℚ), roundTo3Q m⟩

/-- `predictions.py` lines 82-88: confidence from sample size and
volatility.  `cv = np.std/np.mean` when the mean is positive, else 1. -/
noncomputable def confidenceOf (vals : List ℚ) : ℝ :=
  if 14 ≤ vals.length then
    let cv : ℝ :=
      if 0 < listMean vals then Real.sqrt (varOf vals) / (listMean vals : ℝ) else 1
    max 0.7 (min 0.99 (1 - cv * 0.5))
  else if 7 ≤ vals.length then 0.80
  else 0.65

/-- The result record of `predict_demand` (`predictions.py` 90-95). -/
structure DemandForecast where
  avg_daily : ℚ
  trend : ℚ
  confidence : ℝ
  predictions : List DayPrediction

/-- `predictions.py` lines 26-95, `predict_demand`, with the daily-totals
series (the result of `get_daily_sales_history`) and the current date
passed in.  `None` with fewer than 3 observed days. -/
noncomputable def predict_demand (history : List (ℤ × ℚ)) (horizon_days : ℕ)
    (today : ℤ) : Option DemandForecast :=
  if history.length < 3 then none
  else
    let vals := valsOf history
    let wma := wmaOf vals
    let trend := trendOf vals
    some
      { avg_daily := (rndHE wma : ℚ)
        trend := roundTo1 trend
        confidence := roundTo3R (confidenceOf vals)
        predictions :=
          (List.range horizon_days).map
            (fun i => mkPrediction history today wma trend (i + 1)) }

/-- `predictions.py` lines 109-117, `calculate_days_until_empty`. -/
def calculate_days_until_empty (current_liters avg_daily_demand
    min_threshold_pct capacity : ℚ) : ℚ :=
  let min_level := capacity * min_threshold_pct
  let usable := current_liters - min_level
  if usable ≤ 0 then 0
  else if avg_daily_demand ≤ 0 then 999
  else usable / avg_daily_demand

inductive FuelType where
  | magna
  | premium
  | diesel
deriving DecidableEq, Repr

/-- An active station as the recommendation loop sees it: its id and the
three `<fuel>_capacity` attributes read by `getattr` (present on every
station row, so the 40000 `getattr` default is never taken). -/
structure StationInfo where
  id : ℕ
  magna_capacity : ℚ
  premium_capacity : ℚ
  diesel_capacity : ℚ
deriving DecidableEq, Repr

def StationInfo.capacity (s : StationInfo) : FuelType → ℚ
  | FuelType.magna => s.magna_capacity
  | FuelType.premium => s.premium_capacity
  | FuelType.diesel => s.diesel_capacity

inductive Urgency where
  | urgent
  | high
  | normal
deriving DecidableEq, Repr

/-- The sort key's urgency rank (`predictions.py` line 217). -/
def urgRank : Urgency → ℕ
  | Urgency.urgent => 0
  | Urgency.high => 1
  | Urgency.normal => 2

/-- One order recommendation (`predictions.py` 181-198), minus the
display-only strings (code, name, address, reason).  `recommended_date`
(a datetime) is carried as its calendar day and hour. -/
structure OrderRec where
  station_id : ℕ
  fuel_type : FuelType
  current_liters : ℚ
  current_pct : ℚ
  capacity : ℚ
  recommended_liters : ℤ
  delivery_date : ℤ
  delivery_hour : ℕ
  urgency : Urgency
  days_until_empty : ℚ
  avg_daily_demand : ℚ
  confidence : ℝ
  trend : ℚ

/-- `predictions.py` lines 135-199: the loop body once inventory and a
forecast are both available. -/
noncomputable def buildRec (s : StationInfo) (f : FuelType) (liters : ℚ)
    (demand : DemandForecast) (horizon_hours : ℚ) (today : ℤ) : Option OrderRec :=
  let capacity := s.capacity f
  let current_pct := if 0 < capacity then liters / capacity * 100 else 0
  let days_left := calculate_days_until_empty liters demand.avg_daily 0.15 capacity
  let horizon_days := horizon_hours / 24
  if horizon_days + 2 < days_left then none
  else
    let target_fill := capacity * 0.85
    let order0 := max 0 (target_fill - liters + demand.avg_daily)
    let order_liters := rndHE (order0 / 500) * 500
    if order_liters < 1000 then none
    else
      let urgency :=
        if days_left ≤ 1 then Urgency.urgent
        else if days_left ≤ 2 then Urgency.high
        else Urgency.normal
      let delivery_hour : ℕ :=
        match urgency with
        | Urgency.urgent => 6
        | Urgency.high => 8
        | Urgency.normal => 7
      let delivery_date : ℤ :=
        match urgency with
        | Urgency.urgent => today + 1
        | Urgency.high => today + 1
        | Urgency.normal => today + (pytrunc days_left - 1)
      some
        { station_id := s.id
          fuel_type := f
          current_liters := (rndHE liters : ℚ)
          current_pct := roundTo1 current_pct
          capacity := capacity
          recommended_liters := order_liters
          delivery_date := delivery_date
          delivery_hour := delivery_hour
          urgency := urgency
          days_until_empty := roundTo1 days_left
          avg_daily_demand := demand.avg_daily
          confidence := demand.confidence
          trend := demand.trend }

/-- `predictions.py` lines 127-133: skip the pair when there is no
inventory snapshot or the forecaster declined. -/
noncomputable def recommendForPair (s : StationInfo) (f : FuelType)
    (inv : Option ℚ) (history : List (ℤ × ℚ)) (horizon_hours : ℚ)
    (today : ℤ) : Option OrderRec :=
  match inv with
  | none => none
  | some liters =>
    match predict_demand history 7 today with
    | none => none
    | some demand => buildRec s f liters demand horizon_hours today

/-- The sort order of `predictions.py` lines 216-219: ascending in the key
`(urgency rank, days_until_empty)`. -/
def recKeyLE (a b : OrderRec) : Prop :=
  urgRank a.urgency < urgRank b.urgency ∨
    (urgRank a.urgency = urgRank b.urgency ∧ a.days_until_empty ≤ b.days_until_empty)

instance : DecidableRel recKeyLE := fun a b => by
  unfold recKeyLE; exact inferInstance

/-- `predictions.py` lines 120-221, `generate_order_recommendations`: for
every active station and every fuel type, read inventory and history
through the collaborators, build the pair's recommendation if any, and
rank the result urgent-first (Python's `list.sort` is modelled by a
comparison sort under the same key; no claim depends on tie order among
fully equal keys). -/
noncomputable def generate_order_recommendations (stations : List StationInfo)
    (inv : ℕ → FuelType → Option ℚ) (hist : ℕ → FuelType → List (ℤ × ℚ))
    (horizon_hours : ℚ) (today : ℤ) : List OrderRec :=
  let pairs := stations.flatMap
    (fun s => [FuelType.magna, FuelType.premium, FuelType.diesel].map (fun f => (s, f)))
  let recs := pairs.filterMap
    (fun p => recommendForPair p.1 p.2 (inv p.1.id p.2) (hist p.1.id p.2) horizon_hours today)
  List.insertionSort recKeyLE recs

/-! ## The sort order's totality and transitivity, and spec-side definitions -/

instance recKeyTotal : IsTotal OrderRec recKeyLE := ⟨by
  intro a b
  unfold recKeyLE
  rcases Nat.lt_trichotomy (urgRank a.urgency) (urgRank b.urgency) with h | h | h
  · exact Or.inl (Or.inl h)
  · rcases le_total a.days_until_empty b.days_until_empty with hd | hd
    · exact Or.inl (Or.inr ⟨h, hd⟩)
    · exact Or.inr (Or.inr ⟨h.symm, hd⟩)
  · exact Or.inr (Or.inl h)⟩

instance recKeyTrans : IsTrans OrderRec recKeyLE := ⟨by
  intro a b c hab hbc
  unfold recKeyLE at hab hbc ⊢
  rcases hab with h1 | ⟨h1, h1d⟩ <;> rcases hbc with h2 | ⟨h2, h2d⟩
  · exact Or.inl (h1.trans h2)
  · exact Or.inl (by omega)
  · exact Or.inl (by omega)
  · exact Or.inr ⟨h1.trans h2, le_trans h1d h2d⟩⟩

/-- The spec's coefficient of variation: `stddev / mean` when the mean is
positive, else treated as 1. -/
noncomputable def cvOf (vals : List ℚ) : ℝ :=
  if 0 < listMean vals then Real.sqrt (varOf vals) / (listMean vals : ℝ) else 1

/-- The spec's plain ascending weights `1..n`. -/
def specAscWeights (n : ℕ) : List ℚ := (List.range n).map (fun i => (Nat.cast i : ℚ) + 1)

/-- The spec's weighted mean `Σ wᵢxᵢ / Σ wᵢ`. -/
def specWeightedMean (w xs : List ℚ) : ℚ := dot w xs / w.sum

/-- The spec's baseline daily demand: the fixed profile `{1,1,2,2,3,3,4}`
over the last 7 days when at least 7 are observed, else plain ascending
weights `1..n` over all `n` days. -/
def specBaseline (vals : List ℚ) : ℚ :=
  if 7 ≤ vals.length then
    specWeightedMean [1, 1, 2, 2, 3, 3, 4] (vals.drop (vals.length - 7))
  else specWeightedMean (specAscWeights vals.length) vals

/-- A concrete scenario used by the witnesses: station 1 (all capacities
40000 L) with 5000 L of magna on hand and three observed days of flat
2000 L/day sales; no snapshots for the other fuels.  `histZ` is the same
dates with all-zero sales. -/
def histEx : List (ℤ × ℚ) := [(-3, 2000), (-2, 2000), (-1, 2000)]

def sEx : StationInfo := ⟨1, 40000, 40000, 40000⟩

noncomputable def fcEx : DemandForecast :=
  (predict_demand histEx 7 0).get (by with_unfolding_all decide)

noncomputable def recEx : OrderRec :=
  (recommendForPair sEx FuelType.magna (some 5000) histEx 72 0).get
    (by with_unfolding_all decide)

def invEx : ℕ → FuelType → Option ℚ := fun _ f =>
  match f with
  | FuelType.magna => some 5000
  | _ => none

def histF : ℕ → FuelType → List (ℤ × ℚ) := fun _ f =>
  match f with
  | FuelType.magna => histEx
  | _ => []

noncomputable def predEx : DayPrediction :=
  fcEx.predictions.get ⟨0, by with_unfolding_all decide⟩

def histZ : List (ℤ × ℚ) := [(-3, 0), (-2, 0), (-1, 0)]

/-! ## Helper evaluations and claim theorems -/

theorem pdEx : predict_demand histEx 7 0 = some fcEx := (Option.some_get _).symm

theorem pairEx : recommendForPair sEx FuelType.magna (some 5000) histEx 72 0 = some recEx :=
  (Option.some_get _).symm

theorem genEx : generate_order_recommendations [sEx] invEx histF 72 0 = [recEx] := by
  with_unfolding_all rfl

theorem rndHE_nonneg (q : ℚ) (hq : 0 ≤ q) : 0 ≤ rndHE q := by
  unfold rndHE
  split_ifs with h1 h2
  · exact Int.floor_nonneg.mpr hq
  · have := Int.floor_nonneg.mpr hq
    omega
  · rw [round_eq]
    apply Int.floor_nonneg.mpr
    linarith

/-- Claim C1: `predict_demand` returns the insufficient-data signal `none`
exactly when the daily-totals series has fewer than 3 observed days, and a
forecast (`some _`) whenever it has 3 or more. -/
theorem c1_insufficient_data (history : List (ℤ × ℚ)) (k : ℕ) (t : ℤ) :
    predict_demand history k t = none ↔ history.length < 3 := by
  by_cases hl : history.length < 3 <;> simp [predict_demand, hl]

/-- Claim C2: every recommendation emitted by
`generate_order_recommendations` carries `recommended_liters` equal to
`max(0, 0.85·capacity − current_liters + avg_daily_demand)` rounded to the
nearest multiple of 500 L (ties to even); the emitted value is a
nonnegative multiple of 500 and is never below 1000 L — a rounded quantity
below 1000 is suppressed entirely. -/
theorem c2_order_quantity (stations : List StationInfo)
    (inv : ℕ → FuelType → Option ℚ) (hist : ℕ → FuelType → List (ℤ × ℚ))
    (hh : ℚ) (t : ℤ) (r : OrderRec)
    (hr : r ∈ generate_order_recommendations stations inv hist hh t) :
    (500 : ℤ) ∣ r.recommended_liters
    ∧ 1000 ≤ r.recommended_liters
    ∧ 0 ≤ r.recommended_liters
    ∧ ∃ (s : StationInfo) (f : FuelType) (liters : ℚ) (d : DemandForecast),
        inv s.id f = some liters
        ∧ predict_demand (hist s.id f) 7 t = some d
        ∧ r.capacity = s.capacity f
        ∧ r.avg_daily_demand = d.avg_daily
        ∧ r.recommended_liters =
            500 * rndHE (max 0 (0.85 * s.capacity f - liters + d.avg_daily) / 500) := by
  unfold generate_order_recommendations at hr
  have hr2 := (List.Perm.mem_iff (List.perm_insertionSort recKeyLE _)).mp hr
  simp only [List.mem_filterMap] at hr2
  obtain ⟨p, _, hp⟩ := hr2
  unfold recommendForPair at hp
  split at hp
  · exact absurd hp (by simp)
  · rename_i liters hinv
    split at hp
    · exact absurd hp (by simp)
    · rename_i demand hdemand
      unfold buildRec at hp
      dsimp only at hp
      split at hp
      · exact absurd hp (by simp)
      · split at hp
        · exact absurd hp (by simp)
        · rename_i hsmall
          obtain rfl := (Option.some.injEq _ _).mp hp
          have h1000 : (1000 : ℤ) ≤
              rndHE ((max 0 (p.1.capacity p.2 * 0.85 - liters + demand.avg_daily)) / 500) * 500 :=
            not_lt.mp hsmall
          refine ⟨dvd_mul_left 500 _, h1000, le_trans (by norm_num) h1000,
            p.1, p.2, liters, demand, hinv, hdemand, rfl, rfl, ?_⟩
          have hcomm : (0.85 : ℚ) * p.1.capacity p.2 = p.1.capacity p.2 * 0.85 :=
            mul_comm _ _
          dsimp only
          rw [hcomm]
          exact mul_comm _ _

/-- Claim C2 witness: the concrete scenario's emitted order. -/
theorem c2_witness :
    (500 : ℤ) ∣ recEx.recommended_liters
    ∧ 1000 ≤ recEx.recommended_liters
    ∧ 0 ≤ recEx.recommended_liters
    ∧ ∃ (s : StationInfo) (f : FuelType) (liters : ℚ) (d : DemandForecast),
        invEx s.id f = some liters
        ∧ predict_demand (histF s.id f) 7 0 = some d
        ∧ recEx.capacity = s.capacity f
        ∧ recEx.avg_daily_demand = d.avg_daily
        ∧ recEx.recommended_liters =
            500 * rndHE (max 0 (0.85 * s.capacity f - liters + d.avg_daily) / 500) := by
  have hmem : recEx ∈ generate_order_recommendations [sEx] invEx histF 72 0 := by
    rw [genEx]
    exact List.mem_singleton.mpr rfl
  exact c2_order_quantity [sEx] invEx histF 72 0 recEx hmem

/-- Claim C3: every per-day `predicted_liters` produced by `predict_demand`
is nonnegative (the projection is floored at zero before rounding, and the
rounding preserves nonnegativity). -/
theorem c3_predictions_nonneg (history : List (ℤ × ℚ)) (k : ℕ) (t : ℤ)
    (f : DemandForecast) (hf : predict_demand history k t = some f) :
    ∀ p ∈ f.predictions, 0 ≤ p.predicted_liters := by
  intro p hp
  unfold predict_demand at hf
  split at hf
  · exact absurd hf (by simp)
  · obtain rfl := (Option.some.injEq _ _).mp hf
    simp only [List.mem_map] at hp
    obtain ⟨i, _, rfl⟩ := hp
    dsimp only [mkPrediction]
    exact_mod_cast rndHE_nonneg _ (le_max_right _ 0)

/-- Claim C3 witness: the first predicted day of the concrete scenario. -/
theorem c3_witness : 0 ≤ predEx.predicted_liters :=
  c3_predictions_nonneg histEx 7 0 fcEx pdEx predEx (List.get_mem _ _ _)

/-- Claim C4: the depletion estimate is 0 when the usable volume
`current − capacity·threshold` is not positive, the 999 sentinel when the
average daily demand is not positive, and `usable / avg` otherwise; the
division only ever happens with a positive divisor. -/
theorem c4_depletion_estimate (cur avg thr cap : ℚ) :
    (cur - cap * thr ≤ 0 → calculate_days_until_empty cur avg thr cap = 0)
    ∧ (0 < cur - cap * thr → avg ≤ 0 →
        calculate_days_until_empty cur avg thr cap = 999)
    ∧ (0 < cur - cap * thr → 0 < avg →
        calculate_days_until_empty cur avg thr cap = (cur - cap * thr) / avg) := by
  unfold calculate_days_until_empty
  refine ⟨fun h => by simp [h], fun h1 h2 => ?_, fun h1 h2 => ?_⟩
  · rw [if_neg (by linarith), if_pos h2]
  · rw [if_neg (by linarith), if_neg (by linarith)]

/-- Claim C5: the confidence tiering.  With ≥14 observed days it is
`clamp(1 − cv·0.5, 0.7, 0.99)` (and exactly 0.7 when the mean is not
positive, where cv is treated as 1); with 7-13 days it is 0.80; with 3-6
days it is 0.65; and the forecast record carries this value rounded to 3
decimals. -/
theorem c5_confidence_tiers (vals : List ℚ) (hn : 3 ≤ vals.length) :
    (14 ≤ vals.length →
      confidenceOf vals = max 0.7 (min 0.99 (1 - cvOf vals * 0.5))
      ∧ (listMean vals ≤ 0 → confidenceOf vals = 0.7))
    ∧ (7 ≤ vals.length → vals.length ≤ 13 → confidenceOf vals = 0.80)
    ∧ (vals.length ≤ 6 → confidenceOf vals = 0.65)
    ∧ (∀ (history : List (ℤ × ℚ)) (k : ℕ) (t : ℤ) (f : DemandForecast),
        valsOf history = vals → predict_demand history k t = some f →
        f.confidence = roundTo3R (confidenceOf vals)) := by
  refine ⟨fun h14 => ⟨?_, fun hm => ?_⟩, fun h7 h13 => ?_, fun h6 => ?_, ?_⟩
  · unfold confidenceOf cvOf
    rw [if_pos h14]
  · unfold confidenceOf
    rw [if_pos h14]
    dsimp only
    rw [if_neg (not_lt.mpr hm)]
    norm_num [min_def, max_def]
  · unfold confidenceOf
    rw [if_neg (by omega), if_pos h7]
  · unfold confidenceOf
    rw [if_neg (by omega), if_neg (by omega)]
  · intro history k t f hv hf
    unfold predict_demand at hf
    split at hf
    · exact absurd hf (by simp)
    · obtain rfl := (Option.some.injEq _ _).mp hf
      dsimp only
      rw [hv]

/-- Claim C5 witness: 3 observed flat days give the 0.65 tier (carried into
the forecast record), and 14 observed zero days give confidence 0.7. -/
theorem c5_witness :
    confidenceOf (valsOf histEx) = 0.65
    ∧ fcEx.confidence = roundTo3R (confidenceOf (valsOf histEx))
    ∧ confidenceOf (List.replicate 14 0) = 0.7 :=
  ⟨(c5_confidence_tiers (valsOf histEx) (by with_unfolding_all decide)).2.2.1
      (by with_unfolding_all decide),
   (c5_confidence_tiers (valsOf histEx) (by with_unfolding_all decide)).2.2.2
      histEx 7 0 fcEx rfl pdEx,
   ((c5_confidence_tiers (List.replicate 14 0) (by decide)).1 (by decide)).2
      (by with_unfolding_all decide)⟩

/-- Claim C6: the WMA the forecaster computes is exactly the spec's
weighted mean of the last `min(7, n)` days under the fixed profile
(`n ≥ 7`) or plain ascending weights (`n < 7`), and the forecast's
`avg_daily` is that baseline rounded to whole liters. -/
theorem c6_wma_weights :
    (∀ vals : List ℚ, wmaOf vals = specBaseline vals)
    ∧ (∀ (history : List (ℤ × ℚ)) (k : ℕ) (t : ℤ) (f : DemandForecast),
        predict_demand history k t = some f →
        f.avg_daily = (rndHE (specBaseline (valsOf history)) : ℚ)) := by
  have hmain : ∀ vals : List ℚ, wmaOf vals = specBaseline vals := by
    intro vals
    by_cases h7 : 7 ≤ vals.length
    · unfold wmaOf specBaseline wmaWeights specWeightedMean
      rw [if_pos h7, if_pos h7]
      dsimp only
      have hlen : (List.drop (vals.length - 7) vals).length = 7 := by
        rw [List.length_drop]; omega
      simp only [List.length_cons, List.length_nil, Nat.zero_add, Nat.reduceAdd, hlen,
        Nat.sub_self, List.drop_zero]
    · unfold wmaOf specBaseline wmaWeights specWeightedMean specAscWeights
      rw [if_neg h7, if_neg h7]
      dsimp only
      simp only [List.length_map, List.length_range, Nat.sub_self, List.drop_zero]
  refine ⟨hmain, fun history k t f hf => ?_⟩
  unfold predict_demand at hf
  split at hf
  · exact absurd hf (by simp)
  · obtain rfl := (Option.some.injEq _ _).mp hf
    dsimp only
    rw [hmain]

/-- Claim C7: the weekday multiplier used by the projection defaults to 1
for a weekday never observed, is forced to 1 for every weekday when the
overall mean is not positive, and is otherwise the weekday mean over the
overall mean with a positive divisor (so it is always well defined; no
division by zero can occur). -/
theorem c7_weekday_multiplier (history : List (ℤ × ℚ)) (hne : history ≠ []) :
    (∀ w : ℕ, dowVals history w = [] → dowMultUsed history w = 1)
    ∧ (listMean (valsOf history) ≤ 0 → ∀ w : ℕ, dowMultUsed history w = 1)
    ∧ (0 < listMean (valsOf history) → ∀ w : ℕ, dowVals history w ≠ [] →
        dowMultUsed history w = listMean (dowVals history w) / listMean (valsOf history)) := by
  have hlen : 0 < (valsOf history).length := by
    cases history with
    | nil => exact absurd rfl hne
    | cons a l => simp [valsOf]
  have hoa : overallAvgOf (valsOf history) = listMean (valsOf history) := by
    unfold overallAvgOf
    rw [if_pos hlen]
  refine ⟨fun w hw => ?_, fun hm w => ?_, fun hm w hw => ?_⟩
  · unfold dowMultUsed
    dsimp only
    rw [hw]
    simp
  · unfold dowMultUsed
    dsimp only
    rw [hoa]
    split_ifs with h1 h2
    · rfl
    · exact absurd h2 (not_lt.mpr hm)
    · rfl
  · have hne2 : ¬((dowVals history w).isEmpty = true) := by
      simpa [List.isEmpty_iff] using hw
    unfold dowMultUsed
    dsimp only
    rw [hoa, if_neg hne2, if_pos hm]

/-- Claim C7 witness: weekday 0 (Monday) is absent from the concrete
history, so its multiplier is 1; and a history of all-zero sales forces
multiplier 1 even on an observed weekday. -/
theorem c7_witness : dowMultUsed histEx 0 = 1 ∧ dowMultUsed histZ 5 = 1 :=
  ⟨(c7_weekday_multiplier histEx (by with_unfolding_all decide)).1 0
      (by with_unfolding_all decide),
   (c7_weekday_multiplier histZ (by with_unfolding_all decide)).2.1
      (by with_unfolding_all decide) 5⟩

/-- Claim C8: the recommendation list is totally ordered by the key
(urgency rank, days_until_empty): every pair of entries in output order
satisfies `urgent < high < normal`, with ties broken by ascending
days_until_empty — in particular an urgent entry precedes a normal one
regardless of their days_until_empty values. -/
theorem c8_ranking (stations : List StationInfo)
    (inv : ℕ → FuelType → Option ℚ) (hist : ℕ → FuelType → List (ℤ × ℚ))
    (hh : ℚ) (t : ℤ) :
    List.Pairwise recKeyLE (generate_order_recommendations stations inv hist hh t) := by
  unfold generate_order_recommendations
  exact List.sorted_insertionSort recKeyLE _

/-- Claim C9 counterexample: the same 3-day series and the same horizon,
invoked on two different current dates (the implicit `date.today()`),
produce different outputs — the per-day prediction list starts at day 1
in one run and at day 2 in the other. -/
theorem c9_counterexample :
    (predict_demand histEx 1 0).map (fun f => f.predictions.map DayPrediction.date)
      ≠ (predict_demand histEx 1 1).map (fun f => f.predictions.map DayPrediction.date) := by
  with_unfolding_all decide

/-- Claim C9 (amended): the forecast is reproducible from the series, the
horizon and the current date; the summary fields (`avg_daily`, `trend`,
`confidence`) and the success of the forecast depend on the series alone,
not on the current date. -/
theorem c9_deterministic (history : List (ℤ × ℚ)) (k : ℕ) (t t2 : ℤ) :
    (predict_demand history k t).map (fun f => (f.avg_daily, f.trend)) =
      (predict_demand history k t2).map (fun f => (f.avg_daily, f.trend))
    ∧ (predict_demand history k t).map DemandForecast.confidence =
      (predict_demand history k t2).map DemandForecast.confidence
    ∧ (predict_demand history k t).isSome = (predict_demand history k t2).isSome := by
  by_cases hl : history.length < 3 <;> simp [predict_demand, hl]

/-- Claim C10: every emitted recommendation's delivery date is at least one
day after the current date: urgent and high schedule tomorrow at 06:00 and
08:00 respectively, and a normal recommendation (reached only when
days_until_empty exceeds 2) is scheduled `int(days_left) − 1 ≥ 1` days out
at 07:00. -/
theorem c10_delivery_dates (stations : List StationInfo)
    (inv : ℕ → FuelType → Option ℚ) (hist : ℕ → FuelType → List (ℤ × ℚ))
    (hh : ℚ) (t : ℤ) (r : OrderRec)
    (hr : r ∈ generate_order_recommendations stations inv hist hh t) :
    t + 1 ≤ r.delivery_date
    ∧ (r.urgency = Urgency.urgent → r.delivery_date = t + 1 ∧ r.delivery_hour = 6)
    ∧ (r.urgency = Urgency.high → r.delivery_date = t + 1 ∧ r.delivery_hour = 8)
    ∧ (r.urgency = Urgency.normal → r.delivery_hour = 7) := by
  unfold generate_order_recommendations at hr
  have hr2 := (List.Perm.mem_iff (List.perm_insertionSort recKeyLE _)).mp hr
  simp only [List.mem_filterMap] at hr2
  obtain ⟨p, _, hp⟩ := hr2
  unfold recommendForPair at hp
  split at hp
  · exact absurd hp (by simp)
  · rename_i liters hinv
    split at hp
    · exact absurd hp (by simp)
    · rename_i demand hdemand
      unfold buildRec at hp
      dsimp only at hp
      split at hp
      · exact absurd hp (by simp)
      · split at hp
        · exact absurd hp (by simp)
        · obtain rfl := (Option.some.injEq _ _).mp hp
          set days_left := calculate_days_until_empty liters demand.avg_daily 0.15
            (p.1.capacity p.2) with hdays
          by_cases h1 : days_left ≤ 1
          · simp only [if_pos h1]
            exact ⟨le_refl _, by simp, by simp, by simp⟩
          · by_cases h2 : days_left ≤ 2
            · simp only [if_neg h1, if_pos h2]
              exact ⟨le_refl _, by simp, by simp, by simp⟩
            · simp only [if_neg h1, if_neg h2]
              have hgt : (2 : ℚ) < days_left := not_le.mp h2
              have hfloor : (2 : ℤ) ≤ ⌊days_left⌋ := by
                rw [Int.le_floor]
                exact_mod_cast hgt.le
              have htr : pytrunc days_left = ⌊days_left⌋ := by
                unfold pytrunc
                rw [if_pos (by linarith)]
              refine ⟨?_, by simp, by simp, by simp⟩
              rw [htr]
              omega

/-- Claim C10 witness: the concrete urgent recommendation is delivered
tomorrow at 06:00. -/
theorem c10_witness :
    ((0 : ℤ) + 1 ≤ recEx.delivery_date)
    ∧ recEx.delivery_date = 0 + 1
    ∧ recEx.delivery_hour = 6 := by
  have hmem : recEx ∈ generate_order_recommendations [sEx] invEx histF 72 0 := by
    rw [genEx]
    exact List.mem_singleton.mpr rfl
  have h := c10_delivery_dates [sEx] invEx histF 72 0 recEx hmem
  have hu : recEx.urgency = Urgency.urgent := by with_unfolding_all decide
  exact ⟨h.1, (h.2.1 hu).1, (h.2.1 hu).2⟩

end ControlPetro
